import Mathlib

/-!
Shallow embedding of the keystroke-decoding and emission core of the
esp32-s3-ssh-keyboard repository (src/main/ssh-keyboard.c and
src/main/esp32-wifi-keyboard.c), together with theorems settling the
frozen claims about its specification.

Bytes are modelled as `Nat` values in 0..255; the C `char`/`uint8_t`
comparisons in the sources only ever distinguish ASCII values, which the
model reproduces exactly.  The fixed 8-byte escape buffer
`escape_seq_buf` is modelled as a list of cells together with the write
index `escape_seq_idx`; a write past index 7 extends the list beyond
length 8, which records the fact that the C code wrote past the end of
the array.
-/

namespace Keyboard

set_option maxRecDepth 40000

/-- HID keyboard usage id for letter A (tinyusb class/hid/hid.h). -/
def HID_KEY_A : Nat := 0x04

/-- HID keyboard usage id for digit 1. -/
def HID_KEY_1 : Nat := 0x1E

/-- HID keyboard usage id for digit 0. -/
def HID_KEY_0 : Nat := 0x27

/-- HID keyboard usage id for Enter. -/
def HID_KEY_ENTER : Nat := 0x28

/-- HID keyboard usage id for Backspace. -/
def HID_KEY_BACKSPACE : Nat := 0x2A

/-- HID keyboard usage id for Tab. -/
def HID_KEY_TAB : Nat := 0x2B

/-- HID keyboard usage id for Space. -/
def HID_KEY_SPACE : Nat := 0x2C

/-- HID keyboard usage id for minus. -/
def HID_KEY_MINUS : Nat := 0x2D

/-- HID keyboard usage id for equal. -/
def HID_KEY_EQUAL : Nat := 0x2E

/-- HID keyboard usage id for left bracket. -/
def HID_KEY_BRACKET_LEFT : Nat := 0x2F

/-- HID keyboard usage id for right bracket. -/
def HID_KEY_BRACKET_RIGHT : Nat := 0x30

/-- HID keyboard usage id for backslash. -/
def HID_KEY_BACKSLASH : Nat := 0x31

/-- HID keyboard usage id for semicolon. -/
def HID_KEY_SEMICOLON : Nat := 0x33

/-- HID keyboard usage id for apostrophe. -/
def HID_KEY_APOSTROPHE : Nat := 0x34

/-- HID keyboard usage id for grave accent. -/
def HID_KEY_GRAVE : Nat := 0x35

/-- HID keyboard usage id for comma. -/
def HID_KEY_COMMA : Nat := 0x36

/-- HID keyboard usage id for period. -/
def HID_KEY_PERIOD : Nat := 0x37

/-- HID keyboard usage id for slash. -/
def HID_KEY_SLASH : Nat := 0x38

/-- HID keyboard usage id for Insert. -/
def HID_KEY_INSERT : Nat := 0x49

/-- HID keyboard usage id for Home. -/
def HID_KEY_HOME : Nat := 0x4A

/-- HID keyboard usage id for Page Up. -/
def HID_KEY_PAGE_UP : Nat := 0x4B

/-- HID keyboard usage id for Delete (forward delete). -/
def HID_KEY_DELETE : Nat := 0x4C

/-- HID keyboard usage id for End. -/
def HID_KEY_END : Nat := 0x4D

/-- HID keyboard usage id for Page Down. -/
def HID_KEY_PAGE_DOWN : Nat := 0x4E

/-- HID keyboard usage id for Right Arrow. -/
def HID_KEY_ARROW_RIGHT : Nat := 0x4F

/-- HID keyboard usage id for Left Arrow. -/
def HID_KEY_ARROW_LEFT : Nat := 0x50

/-- HID keyboard usage id for Down Arrow. -/
def HID_KEY_ARROW_DOWN : Nat := 0x51

/-- HID keyboard usage id for Up Arrow. -/
def HID_KEY_ARROW_UP : Nat := 0x52

/-- HID left-shift modifier bit (KEYBOARD_MODIFIER_LEFTSHIFT). -/
def KEYBOARD_MODIFIER_LEFTSHIFT : Nat := 0x02

/-- `char_to_hid_keycode` from esp32-wifi-keyboard.c lines 72-124 (the copy in
ssh-keyboard.c lines 100-150 is byte-for-byte the same mapping).  Returns 0
for ESC and for every unknown character. -/
def char_to_hid_keycode (c : Nat) : Nat :=
  if 97 ≤ c ∧ c ≤ 122 then HID_KEY_A + (c - 97)
  else if 65 ≤ c ∧ c ≤ 90 then HID_KEY_A + (c - 65)
  else if 49 ≤ c ∧ c ≤ 57 then HID_KEY_1 + (c - 49)
  else if c = 48 then HID_KEY_0
  else if c = 32 then HID_KEY_SPACE
  else if c = 13 ∨ c = 10 then HID_KEY_ENTER
  else if c = 9 then HID_KEY_TAB
  else if c = 8 ∨ c = 127 then HID_KEY_BACKSPACE
  else if c = 27 then 0
  else if c = 33 then HID_KEY_1
  else if c = 64 then HID_KEY_1 + 1
  else if c = 35 then HID_KEY_1 + 2
  else if c = 36 then HID_KEY_1 + 3
  else if c = 37 then HID_KEY_1 + 4
  else if c = 94 then HID_KEY_1 + 5
  else if c = 38 then HID_KEY_1 + 6
  else if c = 42 then HID_KEY_1 + 7
  else if c = 40 then HID_KEY_1 + 8
  else if c = 41 then HID_KEY_0
  else if c = 45 then HID_KEY_MINUS
  else if c = 61 then HID_KEY_EQUAL
  else if c = 91 then HID_KEY_BRACKET_LEFT
  else if c = 93 then HID_KEY_BRACKET_RIGHT
  else if c = 92 then HID_KEY_BACKSLASH
  else if c = 59 then HID_KEY_SEMICOLON
  else if c = 39 then HID_KEY_APOSTROPHE
  else if c = 96 then HID_KEY_GRAVE
  else if c = 44 then HID_KEY_COMMA
  else if c = 46 then HID_KEY_PERIOD
  else if c = 47 then HID_KEY_SLASH
  else 0

/-- `char_needs_shift` from esp32-wifi-keyboard.c lines 169-181: uppercase
letters and the listed shifted symbols need shift; everything else does
not. -/
def char_needs_shift (c : Nat) : Bool :=
  if 65 ≤ c ∧ c ≤ 90 then true
  else if 49 ≤ c ∧ c ≤ 57 then false
  else c == 33 || c == 64 || c == 35 || c == 36 || c == 37 || c == 94 || c == 38
    || c == 42 || c == 40 || c == 41 || c == 95 || c == 43 || c == 123 || c == 125
    || c == 124 || c == 58 || c == 34 || c == 60 || c == 62 || c == 63

/-- `process_escape_sequence` from esp32-wifi-keyboard.c lines 127-160; the
list argument carries the first `len` valid bytes of the C buffer. -/
def process_escape_sequence (seq : List Nat) : Nat :=
  if 3 ≤ seq.length ∧ seq.getD 0 0 = 27 ∧ seq.getD 1 0 = 91 then
    let c2 := seq.getD 2 0
    if c2 = 65 then HID_KEY_ARROW_UP
    else if c2 = 66 then HID_KEY_ARROW_DOWN
    else if c2 = 67 then HID_KEY_ARROW_RIGHT
    else if c2 = 68 then HID_KEY_ARROW_LEFT
    else if c2 = 72 then HID_KEY_HOME
    else if c2 = 70 then HID_KEY_END
    else if 4 ≤ seq.length then
      let c3 := seq.getD 3 0
      if c3 = 126 then
        if c2 = 49 then HID_KEY_HOME
        else if c2 = 50 then HID_KEY_INSERT
        else if c2 = 51 then HID_KEY_DELETE
        else if c2 = 52 then HID_KEY_END
        else if c2 = 53 then HID_KEY_PAGE_UP
        else if c2 = 54 then HID_KEY_PAGE_DOWN
        else 0
      else if c3 = 55 then HID_KEY_HOME
      else if c3 = 56 then HID_KEY_END
      else 0
    else 0
  else 0

/-- `is_escape_start` from esp32-wifi-keyboard.c lines 163-166. -/
def is_escape_start (c : Nat) : Bool := c == 27

/-- One observable action at the output sink: a key-press report
(`tud_hid_keyboard_report` with a modifier byte and the first keycode slot),
an all-released report, or a `vTaskDelay` of the given number of
milliseconds. -/
inductive Frame where
  | press (modifier : Nat) (keycode : Nat)
  | release
  | delayMs (n : Nat)
deriving DecidableEq, BEq

/-- `send_keycode` from ssh-keyboard.c lines 350-361 (identical in
esp32-wifi-keyboard.c lines 184-198): when the sink is mounted it sends a
press report with modifier 0, waits 50 ms, sends the release report, and
waits 10 ms; when the sink is not mounted it does nothing at all. -/
def send_keycode (mounted : Bool) (keycode : Nat) : List Frame :=
  if mounted then
    [Frame.press 0 keycode, Frame.delayMs 50, Frame.release, Frame.delayMs 10]
  else []

/-- The value a caller of the C `void send_keycode(uint8_t)` receives: the C
function has no return value, so the model returns the unique `Unit`
value regardless of sink readiness. -/
def send_keycode_ret (_mounted : Bool) (_keycode : Nat) : Unit := ()

/-- The four frames of one regular-character emission in
esp32-wifi-keyboard.c `send_key` lines 251-269: press with the shift
modifier decided by `char_needs_shift`, dwell 50 ms, release, settle
10 ms. -/
def regular_frames_wifi (c : Nat) : List Frame :=
  [Frame.press (if char_needs_shift c then KEYBOARD_MODIFIER_LEFTSHIFT else 0)
     (char_to_hid_keycode c),
   Frame.delayMs 50, Frame.release, Frame.delayMs 10]

/-- The four frames of one regular-character emission in ssh-keyboard.c
`send_key` lines 402-416: there the shift modifier is set only for
uppercase letters. -/
def regular_frames_ssh (c : Nat) : List Frame :=
  [Frame.press (if 65 ≤ c ∧ c ≤ 90 then KEYBOARD_MODIFIER_LEFTSHIFT else 0)
     (char_to_hid_keycode c),
   Frame.delayMs 50, Frame.release, Frame.delayMs 10]

/-- The frames flushing a pending literal left bracket, send_key lines
233-243 of esp32-wifi-keyboard.c (identical in ssh-keyboard.c lines
387-395). -/
def bracket_frames : List Frame :=
  [Frame.press 0 (char_to_hid_keycode 91), Frame.delayMs 50, Frame.release, Frame.delayMs 10]

/-- `send_key` from esp32-wifi-keyboard.c lines 201-270.  `prev` is the
function's static `prev_char`; the result pairs the new `prev_char` with
the emitted frames.  When the sink is unmounted nothing happens and the
static state is untouched. -/
def send_key_wifi (mounted : Bool) (prev c : Nat) : Nat × List Frame :=
  if mounted then
    if prev = 91 then
      if c = 65 then (0, send_keycode mounted HID_KEY_ARROW_UP)
      else if c = 66 then (0, send_keycode mounted HID_KEY_ARROW_DOWN)
      else if c = 67 then (0, send_keycode mounted HID_KEY_ARROW_RIGHT)
      else if c = 68 then (0, send_keycode mounted HID_KEY_ARROW_LEFT)
      else if c = 72 then (0, send_keycode mounted HID_KEY_HOME)
      else if c = 70 then (0, send_keycode mounted HID_KEY_END)
      else if 49 ≤ c ∧ c ≤ 54 then (0, [])
      else if c = 91 then (91, bracket_frames)
      else (0, bracket_frames ++ regular_frames_wifi c)
    else if c = 91 then (91, [])
    else (0, regular_frames_wifi c)
  else (prev, [])

/-- `send_key` from ssh-keyboard.c lines 363-418: same shape as the wifi
variant but with no special case for the digits 1-6 after a bracket, and
with the shift modifier set only for uppercase letters. -/
def send_key_ssh (mounted : Bool) (prev c : Nat) : Nat × List Frame :=
  if mounted then
    if prev = 91 then
      if c = 65 then (0, send_keycode mounted HID_KEY_ARROW_UP)
      else if c = 66 then (0, send_keycode mounted HID_KEY_ARROW_DOWN)
      else if c = 67 then (0, send_keycode mounted HID_KEY_ARROW_RIGHT)
      else if c = 68 then (0, send_keycode mounted HID_KEY_ARROW_LEFT)
      else if c = 72 then (0, send_keycode mounted HID_KEY_HOME)
      else if c = 70 then (0, send_keycode mounted HID_KEY_END)
      else if c = 91 then (91, bracket_frames)
      else (0, bracket_frames ++ regular_frames_ssh c)
    else if c = 91 then (91, [])
    else (0, regular_frames_ssh c)
  else (prev, [])

/-- A write `buf[i] = b` into the 8-cell array `escape_seq_buf`.  A write at
an index beyond the current cell list extends it, so a final cell list
longer than 8 records that the C code wrote past the end of the array. -/
def bufWrite (cells : List Nat) (i b : Nat) : List Nat :=
  if i < cells.length then cells.set i b
  else cells ++ List.replicate (i - cells.length) 0 ++ [b]

/-- `memset(escape_seq_buf, 0, sizeof(escape_seq_buf))`: zeroes exactly the
first 8 cells; cells written beyond the array (adjacent memory) are not
restored. -/
def bufClear (cells : List Nat) : List Nat :=
  List.replicate 8 0 ++ cells.drop 8

/-- The file-scope mutable state of ssh-keyboard.c that both input paths
use: the global `escape_seq_buf` cells, the global `escape_seq_idx`, and
the static `prev_char` inside `send_key`. -/
structure SshGlobals where
  cells : List Nat
  idx : Nat
  prev : Nat
deriving DecidableEq, BEq

/-- Initial state of ssh-keyboard.c: zeroed 8-byte buffer, index 0,
`prev_char` 0. -/
def sshInit : SshGlobals := ⟨List.replicate 8 0, 0, 0⟩

/-- The file-scope mutable state of esp32-wifi-keyboard.c (same shape: its
own `escape_seq_buf`, `escape_seq_idx` and `prev_char`). -/
structure WifiGlobals where
  cells : List Nat
  idx : Nat
  prev : Nat
deriving DecidableEq, BEq

/-- Initial state of esp32-wifi-keyboard.c. -/
def wifiInit : WifiGlobals := ⟨List.replicate 8 0, 0, 0⟩

/-- One iteration of the per-byte loop of `uart_event_task` in
esp32-wifi-keyboard.c lines 298-329: NUL bytes are skipped, ESC restarts
the escape buffer, bytes during collection are appended and handed to
`process_escape_sequence`, a recognized sequence emits via `send_keycode`
and resets, an overlong one (index reaching 7) silently resets, and idle
bytes go through `send_key`. -/
def wifi_uart_step (mounted : Bool) (s : WifiGlobals) (b : Nat) : WifiGlobals × List Frame :=
  if b = 0 then (s, [])
  else if is_escape_start b then
    ({ s with cells := bufWrite s.cells 0 27, idx := 1 }, [])
  else if 0 < s.idx then
    let cells := bufWrite s.cells s.idx b
    let idx := s.idx + 1
    if 2 ≤ idx then
      let k := process_escape_sequence (cells.take idx)
      if k ≠ 0 then ({ s with cells := bufClear cells, idx := 0 }, send_keycode mounted k)
      else if 7 ≤ idx then ({ s with cells := bufClear cells, idx := 0 }, [])
      else ({ s with cells := cells, idx := idx }, [])
    else ({ s with cells := cells, idx := idx }, [])
  else
    let r := send_key_wifi mounted s.prev b
    ({ s with prev := r.1 }, r.2)

/-- One iteration of the per-byte loop of `uart_event_task` in
ssh-keyboard.c lines 442-474: like the wifi variant but with the escape
lookup inlined, recognizing only `ESC [ A/B/C/D`; `escape_seq_buf[2]` is
read from the raw cells exactly as the C code does. -/
def ssh_uart_step (mounted : Bool) (s : SshGlobals) (b : Nat) : SshGlobals × List Frame :=
  if b = 0 then (s, [])
  else if b = 27 then
    ({ s with cells := bufWrite s.cells 0 27, idx := 1 }, [])
  else if 0 < s.idx then
    let cells := bufWrite s.cells s.idx b
    let idx := s.idx + 1
    if 2 ≤ idx then
      let k :=
        if cells.getD 0 0 = 27 ∧ cells.getD 1 0 = 91 then
          let c2 := cells.getD 2 0
          if c2 = 65 then HID_KEY_ARROW_UP
          else if c2 = 66 then HID_KEY_ARROW_DOWN
          else if c2 = 67 then HID_KEY_ARROW_RIGHT
          else if c2 = 68 then HID_KEY_ARROW_LEFT
          else 0
        else 0
      if k ≠ 0 then ({ s with cells := bufClear cells, idx := 0 }, send_keycode mounted k)
      else if 7 ≤ idx then ({ s with cells := bufClear cells, idx := 0 }, [])
      else ({ s with cells := cells, idx := idx }, [])
    else ({ s with cells := cells, idx := idx }, [])
  else
    let r := send_key_ssh mounted s.prev b
    ({ s with prev := r.1 }, r.2)

/-- One iteration of the per-byte loop of `channel_data_callback` in
ssh-keyboard.c lines 195-221, acting on the same globals as
`ssh_uart_step`: once three bytes are buffered and the first two are
`ESC [`, the letters A-D emit an arrow via `send_keycode` and anything
else goes through `send_key` with the current byte, after which the
buffer is cleared; with any other buffered prefix the byte is appended
with no length cap at all. -/
def ssh_channel_step (mounted : Bool) (s : SshGlobals) (b : Nat) : SshGlobals × List Frame :=
  if b = 0 then (s, [])
  else if b = 27 then
    ({ s with cells := bufWrite s.cells 0 27, idx := 1 }, [])
  else if 0 < s.idx then
    let cells := bufWrite s.cells s.idx b
    let idx := s.idx + 1
    if 3 ≤ idx ∧ cells.getD 0 0 = 27 ∧ cells.getD 1 0 = 91 then
      let c2 := cells.getD 2 0
      if c2 = 65 then
        ({ s with cells := bufClear cells, idx := 0 }, send_keycode mounted HID_KEY_ARROW_UP)
      else if c2 = 66 then
        ({ s with cells := bufClear cells, idx := 0 }, send_keycode mounted HID_KEY_ARROW_DOWN)
      else if c2 = 67 then
        ({ s with cells := bufClear cells, idx := 0 }, send_keycode mounted HID_KEY_ARROW_RIGHT)
      else if c2 = 68 then
        ({ s with cells := bufClear cells, idx := 0 }, send_keycode mounted HID_KEY_ARROW_LEFT)
      else
        let r := send_key_ssh mounted s.prev b
        ({ s with cells := bufClear cells, idx := 0, prev := r.1 }, r.2)
    else ({ s with cells := cells, idx := idx }, [])
  else
    let r := send_key_ssh mounted s.prev b
    ({ s with prev := r.1 }, r.2)

/-- Fold a per-byte step over an input byte list, accumulating the emitted
frames in order. -/
def runBytes {α : Type} (step : α → Nat → α × List Frame) : α → List Nat → α × List Frame
  | s, [] => (s, [])
  | s, b :: rest =>
    let r1 := step s b
    let r2 := runBytes step r1.1 rest
    (r2.1, r1.2 ++ r2.2)

/-- The key events visible in a frame list: the (modifier, keycode) pairs of
its press reports, in order. -/
def pressesOf : List Frame → List (Nat × Nat)
  | [] => []
  | Frame.press m k :: rest => (m, k) :: pressesOf rest
  | _ :: rest => pressesOf rest

/-- `isInterleaving as bs t` holds when the trace `t` is an order-preserving
merge of the two frame sequences `as` and `bs`.  `send_keycode` and
`send_key` contain no mutual-exclusion primitive (ssh-keyboard.c lines
350-418 and esp32-wifi-keyboard.c lines 184-270 take no semaphore or
mutex), so when two FreeRTOS tasks emit concurrently every interleaving
of their frame sequences is an admissible sink trace. -/
def isInterleaving : List Frame → List Frame → List Frame → Bool
  | as, bs, [] => as.isEmpty && bs.isEmpty
  | as, bs, t :: ts =>
    (match as with
     | a :: as2 => a == t && isInterleaving as2 bs ts
     | [] => false)
    ||
    (match bs with
     | b :: bs2 => b == t && isInterleaving as bs2 ts
     | [] => false)

/-- Helper for `strictPairs`: scans a trace remembering whether a press
report is currently unreleased. -/
def strictPairsAux : Bool → List Frame → Bool
  | opened, Frame.press _ _ :: rest => if opened then false else strictPairsAux true rest
  | opened, Frame.release :: rest => if opened then strictPairsAux false rest else false
  | opened, Frame.delayMs _ :: rest => strictPairsAux opened rest
  | opened, [] => !opened

/-- A trace is a strict sequence of complete (press, release) pairs: no
press report arrives while an earlier press is still unreleased, every
release matches an open press, and the trace ends with everything
released. -/
def strictPairs (t : List Frame) : Bool := strictPairsAux false t

/-- Modelled from the spec: the printable ASCII characters that require the
Shift modifier on a US keyboard layout, namely the uppercase letters and
the shifted symbols including tilde. -/
def spec_us_needs_shift (c : Nat) : Bool :=
  (65 ≤ c && c ≤ 90) || c == 33 || c == 64 || c == 35 || c == 36 || c == 37
    || c == 94 || c == 38 || c == 42 || c == 40 || c == 41 || c == 95 || c == 43
    || c == 123 || c == 125 || c == 124 || c == 58 || c == 34 || c == 60
    || c == 62 || c == 63 || c == 126

/-- Modelled from the spec: the keycode column of the section 4.1 Keycode
Table contract `map(char) -> Option (keycode, needs_shift)`.  Lowercase
and uppercase letters share the same base keycode; digits 1-9 are
sequential from the digit-1 keycode and 0 has its own; space, CR and LF
(both Enter), tab, backspace and DEL (both Backspace); the listed
printable punctuation maps one to one to its dedicated keycode, and the
shifted-digit symbols map to the keycode of the digit they are shifted
from; ESC and every character outside the table map to `none`. -/
def spec_table_keycode (c : Nat) : Option Nat :=
  if 97 ≤ c ∧ c ≤ 122 then some (HID_KEY_A + (c - 97))
  else if 65 ≤ c ∧ c ≤ 90 then some (HID_KEY_A + (c - 65))
  else if 49 ≤ c ∧ c ≤ 57 then some (HID_KEY_1 + (c - 49))
  else if c = 48 then some HID_KEY_0
  else if c = 32 then some HID_KEY_SPACE
  else if c = 13 ∨ c = 10 then some HID_KEY_ENTER
  else if c = 9 then some HID_KEY_TAB
  else if c = 8 ∨ c = 127 then some HID_KEY_BACKSPACE
  else if c = 33 then some HID_KEY_1
  else if c = 64 then some (HID_KEY_1 + 1)
  else if c = 35 then some (HID_KEY_1 + 2)
  else if c = 36 then some (HID_KEY_1 + 3)
  else if c = 37 then some (HID_KEY_1 + 4)
  else if c = 94 then some (HID_KEY_1 + 5)
  else if c = 38 then some (HID_KEY_1 + 6)
  else if c = 42 then some (HID_KEY_1 + 7)
  else if c = 40 then some (HID_KEY_1 + 8)
  else if c = 41 then some HID_KEY_0
  else if c = 45 then some HID_KEY_MINUS
  else if c = 61 then some HID_KEY_EQUAL
  else if c = 91 then some HID_KEY_BRACKET_LEFT
  else if c = 93 then some HID_KEY_BRACKET_RIGHT
  else if c = 92 then some HID_KEY_BACKSLASH
  else if c = 59 then some HID_KEY_SEMICOLON
  else if c = 39 then some HID_KEY_APOSTROPHE
  else if c = 96 then some HID_KEY_GRAVE
  else if c = 44 then some HID_KEY_COMMA
  else if c = 46 then some HID_KEY_PERIOD
  else if c = 47 then some HID_KEY_SLASH
  else none

/-- Every per-byte step of the three input loops maps a NUL byte to an
unchanged state with no output: each loop begins with
`if (dtmp[i] == 0) continue;` (resp. `input_data[i]`). -/
theorem runBytes_skip_nul {α : Type} (step : α → Nat → α × List Frame)
    (hz : ∀ s, step s 0 = (s, [])) (l : List Nat) :
    ∀ s : α, runBytes step s (List.filter (fun b => b != 0) l) = runBytes step s l := by
  induction l with
  | nil => intro s; rfl
  | cons b rest ih =>
    intro s
    by_cases hb : b = 0
    · subst hb
      have hf : List.filter (fun b => b != 0) ((0 : Nat) :: rest)
          = List.filter (fun b => b != 0) rest := by simp
      rw [hf, ih]
      simp [runBytes, hz]
    · have hf : List.filter (fun b => b != 0) (b :: rest)
          = b :: List.filter (fun b => b != 0) rest := by simp [hb]
      rw [hf]
      simp only [runBytes]
      rw [ih]

/-- Claim C1 (code_bug): the spec says the escape buffer never holds more
than 8 bytes and overflow forces a reset to Idle, but the SSH channel
decoder has no length cap when the second buffered byte is not a bracket:
after ESC followed by eight ordinary bytes the write index reaches 9, the
ninth write lands past the end of the 8-byte `escape_seq_buf` array
(the cell list grows to length 9), no event is emitted, and the decoder
is still collecting. -/
theorem C1_ssh_escape_buffer_overflow :
    (runBytes (ssh_channel_step true) sshInit [27, 97, 97, 97, 97, 97, 97, 97, 97]).1.cells.length = 9
    ∧ (runBytes (ssh_channel_step true) sshInit [27, 97, 97, 97, 97, 97, 97, 97, 97]).1.idx = 9
    ∧ (runBytes (ssh_channel_step true) sshInit [27, 97, 97, 97, 97, 97, 97, 97, 97]).2 = [] := by
  decide

/-- Claim C2 (counterexample): the emission helpers take no lock, so the
trace below, in which the second press report arrives before the first
release, is an admissible merge of two concurrent `send_keycode` calls,
and it is not a strict sequence of complete (press, release) pairs. -/
theorem C2_press_interleaving_possible :
    isInterleaving (send_keycode true HID_KEY_ARROW_UP) (send_keycode true HID_KEY_ARROW_DOWN)
      [Frame.press 0 HID_KEY_ARROW_UP, Frame.press 0 HID_KEY_ARROW_DOWN,
       Frame.delayMs 50, Frame.delayMs 50, Frame.release, Frame.release,
       Frame.delayMs 10, Frame.delayMs 10] = true
    ∧ strictPairs
      [Frame.press 0 HID_KEY_ARROW_UP, Frame.press 0 HID_KEY_ARROW_DOWN,
       Frame.delayMs 50, Frame.delayMs 50, Frame.release, Frame.release,
       Frame.delayMs 10, Frame.delayMs 10] = false := by
  decide

/-- Claim C2 (amended): a single `send_keycode` call alone always produces
one complete (press, release) pair, but because the code contains no
mutual-exclusion lock there exists an admissible interleaving of two
concurrent emissions whose sink trace is not strictly paired. -/
theorem C2_no_lock_amended :
    (∀ k : Nat, strictPairs (send_keycode true k) = true)
    ∧ ∃ t : List Frame,
        isInterleaving (send_keycode true HID_KEY_ARROW_UP)
          (send_keycode true HID_KEY_ARROW_DOWN) t = true
        ∧ strictPairs t = false :=
  ⟨fun _ => rfl,
   ⟨[Frame.press 0 HID_KEY_ARROW_UP, Frame.press 0 HID_KEY_ARROW_DOWN,
     Frame.delayMs 50, Frame.delayMs 50, Frame.release, Frame.release,
     Frame.delayMs 10, Frame.delayMs 10], by decide⟩⟩

/-- Claim C3 (counterexample): feeding ESC then the byte 97 to the fresh
UART decoder of esp32-wifi-keyboard.c emits nothing at all, not one
KeyEvent for 97: the byte is appended to the escape buffer and the
decoder keeps collecting with index 2. -/
theorem C3_esc_second_byte_swallowed :
    pressesOf (runBytes (wifi_uart_step true) wifiInit [27, 97]).2 = []
    ∧ pressesOf (runBytes (wifi_uart_step true) wifiInit [27, 97]).2
        ≠ [(0, char_to_hid_keycode 97)]
    ∧ (runBytes (wifi_uart_step true) wifiInit [27, 97]).1.idx = 2 := by
  decide

/-- Claim C3 (amended): for every byte other than NUL and ESC fed as the
second byte after ESC, both UART decoders emit no frame, do not discard
the ESC, and remain collecting with buffer index 2; the byte is absorbed
into the escape buffer instead of being re-evaluated as an Idle
character. -/
theorem C3_amended (b : Fin 256) (h0 : b.val ≠ 0) (h27 : b.val ≠ 27) (h91 : b.val ≠ 91) :
    (runBytes (wifi_uart_step true) wifiInit [27, b.val]).2 = []
    ∧ (runBytes (wifi_uart_step true) wifiInit [27, b.val]).1.idx = 2
    ∧ (runBytes (ssh_uart_step true) sshInit [27, b.val]).2 = []
    ∧ (runBytes (ssh_uart_step true) sshInit [27, b.val]).1.idx = 2 := by
  revert b
  decide

/-- Witness for C3_amended at the byte 97. -/
theorem C3_amended_witness :
    (runBytes (wifi_uart_step true) wifiInit [27, 97]).2 = []
    ∧ (runBytes (wifi_uart_step true) wifiInit [27, 97]).1.idx = 2
    ∧ (runBytes (ssh_uart_step true) sshInit [27, 97]).2 = []
    ∧ (runBytes (ssh_uart_step true) sshInit [27, 97]).1.idx = 2 :=
  C3_amended ⟨97, by decide⟩ (by decide) (by decide) (by decide)

/-- Claim C4 (counterexample): the byte 123 is outside the mapped set
(`char_to_hid_keycode` returns 0), yet processing it in Idle state does
send frames to the sink: ssh-keyboard.c sends a press report with keycode
0, and esp32-wifi-keyboard.c sends a press report with keycode 0 and the
shift modifier set. -/
theorem C4_unmapped_still_sends_frames :
    char_to_hid_keycode 123 = 0
    ∧ (send_key_ssh true 0 123).2 ≠ []
    ∧ (send_key_ssh true 0 123).2
        = [Frame.press 0 0, Frame.delayMs 50, Frame.release, Frame.delayMs 10]
    ∧ (wifi_uart_step true wifiInit 123).2
        = [Frame.press KEYBOARD_MODIFIER_LEFTSHIFT 0, Frame.delayMs 50,
           Frame.release, Frame.delayMs 10] := by
  decide

/-- Claim C4 (amended): for every unmapped byte (other than NUL and ESC)
processed in Idle state, no error is raised and the pipeline continues
with an unchanged decoder state, but the code still sends a press report
carrying keycode 0 (with the shift modifier chosen by the respective
file) followed by a release report, rather than sending nothing. -/
theorem C4_amended (c : Fin 256) (hm : char_to_hid_keycode c.val = 0)
    (h0 : c.val ≠ 0) (h27 : c.val ≠ 27) :
    (wifi_uart_step true wifiInit c.val).2
      = [Frame.press (if char_needs_shift c.val then KEYBOARD_MODIFIER_LEFTSHIFT else 0) 0,
         Frame.delayMs 50, Frame.release, Frame.delayMs 10]
    ∧ (wifi_uart_step true wifiInit c.val).1 = wifiInit
    ∧ (send_key_ssh true 0 c.val).2
      = [Frame.press (if 65 ≤ c.val ∧ c.val ≤ 90 then KEYBOARD_MODIFIER_LEFTSHIFT else 0) 0,
         Frame.delayMs 50, Frame.release, Frame.delayMs 10] := by
  revert c
  decide

/-- Witness for C4_amended at the byte 123. -/
theorem C4_amended_witness :
    (wifi_uart_step true wifiInit 123).2
      = [Frame.press (if char_needs_shift 123 then KEYBOARD_MODIFIER_LEFTSHIFT else 0) 0,
         Frame.delayMs 50, Frame.release, Frame.delayMs 10]
    ∧ (wifi_uart_step true wifiInit 123).1 = wifiInit
    ∧ (send_key_ssh true 0 123).2
      = [Frame.press (if 65 ≤ (123 : Nat) ∧ (123 : Nat) ≤ 90 then KEYBOARD_MODIFIER_LEFTSHIFT else 0) 0,
         Frame.delayMs 50, Frame.release, Frame.delayMs 10] :=
  C4_amended ⟨123, by decide⟩ (by decide) (by decide) (by decide)

/-- Claim C5 (counterexample): in ssh-keyboard.c the SSH channel and the
UART console do share decoder state: feeding ESC through the SSH channel
changes the global state, and the UART path then reacts differently to
the byte 65 than it would from the untouched initial state. -/
theorem C5_shared_decoder_state :
    (ssh_channel_step true sshInit 27).1 ≠ sshInit
    ∧ (ssh_uart_step true (ssh_channel_step true sshInit 27).1 65).2
        ≠ (ssh_uart_step true sshInit 65).2 := by
  decide

/-- Claim C5 (amended): both sources of ssh-keyboard.c operate on one
shared global escape buffer; after the SSH channel consumes an ESC the
shared index is 1, and the UART path then swallows the byte 65 into the
escape buffer and emits nothing, where from the initial state it would
have emitted a shifted letter-A press and release. -/
theorem C5_shared_state_crosstalk :
    (ssh_channel_step true sshInit 27).1.idx = 1
    ∧ sshInit.idx = 0
    ∧ (ssh_uart_step true (ssh_channel_step true sshInit 27).1 65).2 = []
    ∧ (ssh_uart_step true sshInit 65).2
        = [Frame.press KEYBOARD_MODIFIER_LEFTSHIFT HID_KEY_A, Frame.delayMs 50,
           Frame.release, Frame.delayMs 10] := by
  decide

/-- Claim C6 (counterexample): the UART decoder of ssh-keyboard.c handles
only the terminators A, B, C and D; feeding ESC, bracket, H to it fresh
emits no Home event at all and leaves the decoder collecting with index
3 instead of Idle. -/
theorem C6_ssh_uart_home_unhandled :
    pressesOf (runBytes (ssh_uart_step true) sshInit [27, 91, 72]).2 = []
    ∧ pressesOf (runBytes (ssh_uart_step true) sshInit [27, 91, 72]).2 ≠ [(0, HID_KEY_HOME)]
    ∧ (runBytes (ssh_uart_step true) sshInit [27, 91, 72]).1.idx = 3 := by
  decide

/-- Claim C6 (amended): the esp32-wifi-keyboard.c decoder behaves exactly
as claimed for all six single-letter terminators, emitting one event
(Up, Down, Right, Left, Home, End respectively) and resetting to Idle;
the ssh-keyboard.c UART decoder does so only for A, B, C and D, while H
and F there produce no event and leave it collecting. -/
theorem C6_amended :
    (pressesOf (runBytes (wifi_uart_step true) wifiInit [27, 91, 65]).2 = [(0, HID_KEY_ARROW_UP)]
      ∧ (runBytes (wifi_uart_step true) wifiInit [27, 91, 65]).1.idx = 0)
    ∧ (pressesOf (runBytes (wifi_uart_step true) wifiInit [27, 91, 66]).2 = [(0, HID_KEY_ARROW_DOWN)]
      ∧ (runBytes (wifi_uart_step true) wifiInit [27, 91, 66]).1.idx = 0)
    ∧ (pressesOf (runBytes (wifi_uart_step true) wifiInit [27, 91, 67]).2 = [(0, HID_KEY_ARROW_RIGHT)]
      ∧ (runBytes (wifi_uart_step true) wifiInit [27, 91, 67]).1.idx = 0)
    ∧ (pressesOf (runBytes (wifi_uart_step true) wifiInit [27, 91, 68]).2 = [(0, HID_KEY_ARROW_LEFT)]
      ∧ (runBytes (wifi_uart_step true) wifiInit [27, 91, 68]).1.idx = 0)
    ∧ (pressesOf (runBytes (wifi_uart_step true) wifiInit [27, 91, 72]).2 = [(0, HID_KEY_HOME)]
      ∧ (runBytes (wifi_uart_step true) wifiInit [27, 91, 72]).1.idx = 0)
    ∧ (pressesOf (runBytes (wifi_uart_step true) wifiInit [27, 91, 70]).2 = [(0, HID_KEY_END)]
      ∧ (runBytes (wifi_uart_step true) wifiInit [27, 91, 70]).1.idx = 0)
    ∧ (pressesOf (runBytes (ssh_uart_step true) sshInit [27, 91, 65]).2 = [(0, HID_KEY_ARROW_UP)]
      ∧ (runBytes (ssh_uart_step true) sshInit [27, 91, 65]).1.idx = 0)
    ∧ (pressesOf (runBytes (ssh_uart_step true) sshInit [27, 91, 66]).2 = [(0, HID_KEY_ARROW_DOWN)]
      ∧ (runBytes (ssh_uart_step true) sshInit [27, 91, 66]).1.idx = 0)
    ∧ (pressesOf (runBytes (ssh_uart_step true) sshInit [27, 91, 67]).2 = [(0, HID_KEY_ARROW_RIGHT)]
      ∧ (runBytes (ssh_uart_step true) sshInit [27, 91, 67]).1.idx = 0)
    ∧ (pressesOf (runBytes (ssh_uart_step true) sshInit [27, 91, 68]).2 = [(0, HID_KEY_ARROW_LEFT)]
      ∧ (runBytes (ssh_uart_step true) sshInit [27, 91, 68]).1.idx = 0)
    ∧ (pressesOf (runBytes (ssh_uart_step true) sshInit [27, 91, 72]).2 = []
      ∧ (runBytes (ssh_uart_step true) sshInit [27, 91, 72]).1.idx = 3)
    ∧ (pressesOf (runBytes (ssh_uart_step true) sshInit [27, 91, 70]).2 = []
      ∧ (runBytes (ssh_uart_step true) sshInit [27, 91, 70]).1.idx = 3) := by
  decide

/-- Claim C7 (counterexample): feeding ESC, bracket, 3, tilde to the fresh
SSH channel decoder of ssh-keyboard.c does not yield one Delete event:
the digit 3 hits the default branch and is emitted as a literal digit-3
keypress, and the tilde is then processed in Idle as an unmapped
character, producing a keycode-0 press. -/
theorem C7_ssh_channel_extended_seq_mishandled :
    pressesOf (runBytes (ssh_channel_step true) sshInit [27, 91, 51, 126]).2
      = [(0, char_to_hid_keycode 51), (0, 0)]
    ∧ pressesOf (runBytes (ssh_channel_step true) sshInit [27, 91, 51, 126]).2
        ≠ [(0, HID_KEY_DELETE)] := by
  decide

/-- Claim C7 (amended): the esp32-wifi-keyboard.c decoder maps the
extended sequences exactly as claimed, one event per sequence with a
reset to Idle (1 Home, 2 Insert, 3 Delete, 4 End, 5 PageUp, 6 PageDown);
the SSH channel decoder of ssh-keyboard.c instead emits the digit as a
literal keypress and then a keycode-0 press for the tilde. -/
theorem C7_amended :
    (pressesOf (runBytes (wifi_uart_step true) wifiInit [27, 91, 49, 126]).2 = [(0, HID_KEY_HOME)]
      ∧ (runBytes (wifi_uart_step true) wifiInit [27, 91, 49, 126]).1.idx = 0)
    ∧ (pressesOf (runBytes (wifi_uart_step true) wifiInit [27, 91, 50, 126]).2 = [(0, HID_KEY_INSERT)]
      ∧ (runBytes (wifi_uart_step true) wifiInit [27, 91, 50, 126]).1.idx = 0)
    ∧ (pressesOf (runBytes (wifi_uart_step true) wifiInit [27, 91, 51, 126]).2 = [(0, HID_KEY_DELETE)]
      ∧ (runBytes (wifi_uart_step true) wifiInit [27, 91, 51, 126]).1.idx = 0)
    ∧ (pressesOf (runBytes (wifi_uart_step true) wifiInit [27, 91, 52, 126]).2 = [(0, HID_KEY_END)]
      ∧ (runBytes (wifi_uart_step true) wifiInit [27, 91, 52, 126]).1.idx = 0)
    ∧ (pressesOf (runBytes (wifi_uart_step true) wifiInit [27, 91, 53, 126]).2 = [(0, HID_KEY_PAGE_UP)]
      ∧ (runBytes (wifi_uart_step true) wifiInit [27, 91, 53, 126]).1.idx = 0)
    ∧ (pressesOf (runBytes (wifi_uart_step true) wifiInit [27, 91, 54, 126]).2 = [(0, HID_KEY_PAGE_DOWN)]
      ∧ (runBytes (wifi_uart_step true) wifiInit [27, 91, 54, 126]).1.idx = 0)
    ∧ pressesOf (runBytes (ssh_channel_step true) sshInit [27, 91, 51, 126]).2
        = [(0, char_to_hid_keycode 51), (0, 0)] := by
  decide

/-- Claim C8 (counterexample): feeding the bytes of the string Hi! through
the UART path of ssh-keyboard.c yields the exclamation mark as a digit-1
keycode with NO shift modifier, because that file sets shift only for
uppercase letters; moreover `char_needs_shift` returns false for tilde
although tilde requires shift on a US layout. -/
theorem C8_shift_table_mismatch :
    pressesOf (runBytes (ssh_uart_step true) sshInit [72, 105, 33]).2
      = [(KEYBOARD_MODIFIER_LEFTSHIFT, char_to_hid_keycode 72),
         (0, char_to_hid_keycode 105), (0, HID_KEY_1)]
    ∧ pressesOf (runBytes (ssh_uart_step true) sshInit [72, 105, 33]).2
        ≠ [(KEYBOARD_MODIFIER_LEFTSHIFT, char_to_hid_keycode 72),
           (0, char_to_hid_keycode 105), (KEYBOARD_MODIFIER_LEFTSHIFT, HID_KEY_1)]
    ∧ char_needs_shift 126 = false
    ∧ spec_us_needs_shift 126 = true := by
  decide

/-- Claim C8 (amended): for every printable ASCII character the keycode
mapping agrees with the keycode column of the section 4.1 table, with the
absent table entry encoded as keycode 0; `char_needs_shift` agrees with
the US-layout shift requirement for every printable character except
tilde, where it wrongly returns false; the esp32-wifi-keyboard.c
pipeline maps the string Hi! exactly as claimed (H shifted, i unshifted,
exclamation mark as digit-1 keycode with shift), while the
ssh-keyboard.c pipeline emits the exclamation mark without shift. -/
theorem C8_amended :
    (∀ c : Fin 127, 32 ≤ c.val →
      char_to_hid_keycode c.val = (spec_table_keycode c.val).getD 0)
    ∧ (∀ c : Fin 127, 32 ≤ c.val → c.val ≠ 126 →
      char_needs_shift c.val = spec_us_needs_shift c.val)
    ∧ pressesOf (runBytes (wifi_uart_step true) wifiInit [72, 105, 33]).2
      = [(KEYBOARD_MODIFIER_LEFTSHIFT, char_to_hid_keycode 72),
         (0, char_to_hid_keycode 105), (KEYBOARD_MODIFIER_LEFTSHIFT, HID_KEY_1)]
    ∧ pressesOf (runBytes (ssh_uart_step true) sshInit [72, 105, 33]).2
      = [(KEYBOARD_MODIFIER_LEFTSHIFT, char_to_hid_keycode 72),
         (0, char_to_hid_keycode 105), (0, HID_KEY_1)] := by
  decide

/-- Witness for C8_amended: the table conjunct applied at the exclamation
mark (33) and the shift conjunct applied at the question mark (63). -/
theorem C8_amended_witness :
    char_to_hid_keycode 33 = (spec_table_keycode 33).getD 0
    ∧ char_needs_shift 63 = spec_us_needs_shift 63 :=
  ⟨C8_amended.1 ⟨33, by decide⟩ (by decide),
   C8_amended.2.1 ⟨63, by decide⟩ (by decide) (by decide)⟩

/-- Claim C9 (counterexample): when the sink is not mounted `send_keycode`
sends no frame, but it does not return a SinkNotReady failure either: the
C function is void, so its return value on a not-ready sink is identical
to its return value on a successful emission. -/
theorem C9_no_failure_value :
    send_keycode false HID_KEY_ARROW_UP = []
    ∧ send_keycode_ret false HID_KEY_ARROW_UP = send_keycode_ret true HID_KEY_ARROW_UP :=
  ⟨rfl, rfl⟩

/-- Claim C9 (amended): with the sink not ready, `send_keycode` and
`send_key` emit no frame and no delay, so each pending emission is
skipped immediately and nothing blocks; but the functions are void, so no
SinkNotReady failure is returned to the caller, and the code has no
serializer lock to release. -/
theorem C9_amended :
    (∀ k : Nat, send_keycode false k = [])
    ∧ (∀ p c : Nat, send_key_wifi false p c = (p, []))
    ∧ (∀ p c : Nat, send_key_ssh false p c = (p, []))
    ∧ (∀ k : Nat, send_keycode_ret false k = send_keycode_ret true k) :=
  ⟨fun _ => rfl, fun _ _ => rfl, fun _ _ => rfl, fun _ => rfl⟩

/-- Claim C10 (confirmed): for every input byte list, every start state and
either mounting state, each of the three per-byte loops produces exactly
the same final state and the same frame sequence on the list as on the
list with all NUL bytes removed: NUL bytes are skipped before any
decoding happens. -/
theorem C10_nul_bytes_skipped (mounted : Bool) (s : WifiGlobals) (t u : SshGlobals)
    (l : List Nat) :
    runBytes (wifi_uart_step mounted) s (List.filter (fun b => b != 0) l)
      = runBytes (wifi_uart_step mounted) s l
    ∧ runBytes (ssh_uart_step mounted) t (List.filter (fun b => b != 0) l)
      = runBytes (ssh_uart_step mounted) t l
    ∧ runBytes (ssh_channel_step mounted) u (List.filter (fun b => b != 0) l)
      = runBytes (ssh_channel_step mounted) u l :=
  ⟨runBytes_skip_nul (wifi_uart_step mounted) (fun _ => rfl) l s,
   runBytes_skip_nul (ssh_uart_step mounted) (fun _ => rfl) l t,
   runBytes_skip_nul (ssh_channel_step mounted) (fun _ => rfl) l u⟩

end Keyboard
